import Mathlib

/-!
Shallow embedding of the zehndercloud Home Assistant custom integration
(custom_components/zehndercloud): the update coordinator's fetch cycle
(__init__.py), the fan speed mapping (fan.py), the sensor and binary-sensor
descriptor tables (sensor.py, binary_sensor.py) and the select entity
(select.py), together with theorems settling the specification claims.

Machine values flowing through the integration are JSON primitives; they are
modelled by the inductive type Value below, with rationals standing for
Python's exact ints and the results of true division.  A Python expression
that can raise is modelled as an Option, with none standing for the raised
exception.
-/

/-- Primitive values stored in the device state and details mappings
(JSON numbers, strings, booleans and null). -/
inductive Value where
  | num (q : ℚ)
  | str (s : String)
  | bool (b : Bool)
  | null
deriving DecidableEq

/-- Python dict lookup (dict.get): the first binding for the key in the
string-keyed mapping, none when the key is absent. -/
def lookupValue (m : List (String × Value)) (k : String) : Option Value :=
  List.lookup k m

/-- pyzehndercloud's DeviceState: a wrapper around the raw state mapping
(accessed in the source as state.data). -/
structure DeviceState where
  data : List (String × Value)
deriving DecidableEq

/-- pyzehndercloud's DeviceDetails: a wrapper around the raw details mapping. -/
structure DeviceDetails where
  data : List (String × Value)
deriving DecidableEq

/-- Modelled from the spec: DeviceState.value comes from the external
pyzehndercloud library, whose source is not part of this repository.  Per the
spec, a descriptor lookup on a key absent from the snapshot fails (raises), so
the lookup is embedded as an Option, none standing for the raised error and
some v for a present key bound to v. -/
def DeviceState.value (st : DeviceState) (k : String) : Option Value :=
  lookupValue st.data k

/-- Modelled from the spec: DeviceDetails.value, the details-side analogue of
DeviceState.value. -/
def DeviceDetails.value (dt : DeviceDetails) (k : String) : Option Value :=
  lookupValue dt.data k

/-- Outcome of one awaited client coroutine: a returned value, the library's
AuthError, or some other raised exception carrying its message. -/
inductive RawCallResult (α : Type) where
  | ok (a : α)
  | authError
  | exn (msg : String)
deriving DecidableEq

/-- One awaited client call together with the abstract time it takes; the
duration only matters relative to the timeout bound placed around the call. -/
structure ClientCall (α : Type) where
  result : RawCallResult α
  duration : Nat
deriving DecidableEq

/-- Semantics of async_timeout.timeout(limit) wrapped around one awaited call:
when the call takes longer than the limit it is cancelled and an asyncio
TimeoutError is raised, which is an ordinary exception to the surrounding
except handlers; otherwise the call's own outcome goes through. -/
def async_timeout {α : Type} (limit : Nat) (c : ClientCall α) : RawCallResult α :=
  if limit < c.duration then .exn "TimeoutError" else c.result

/-- The two errors _async_update_data can raise: Home Assistant's
ConfigEntryAuthFailed (authentication required) and UpdateFailed (transient
update failure), each carrying its message. -/
inductive UpdateError where
  | configEntryAuthFailed (msg : String)
  | updateFailed (msg : String)
deriving DecidableEq

/-- The two API client requests a fetch cycle can issue. -/
inductive ApiRequest where
  | getDeviceState
  | getDeviceDetails
deriving DecidableEq

/-- The dict returned by a successful fetch cycle,
python side: the dict with keys state and details. -/
structure CoordinatorData where
  state : DeviceState
  details : DeviceDetails
deriving DecidableEq

/-- The check state.data.get("timestamp") is None from _async_update_data:
true when the timestamp key is absent from the state mapping or bound to
null. -/
def timestampIsNone (st : DeviceState) : Bool :=
  match lookupValue st.data "timestamp" with
  | none => true
  | some .null => true
  | some _ => false

/-- ZehnderCloudUpdateCoordinator._async_update_data (__init__.py).  The state
call runs under its own 10-second timeout, then the details call under a
second independent 10-second timeout.  AuthError raised by either call is
re-raised as ConfigEntryAuthFailed; any other exception (including the
timeouts) becomes UpdateFailed with the cause appended to the fixed message;
a state mapping whose timestamp is absent or null fails with a fixed
UpdateFailed message; otherwise the combined dict is returned.  The second
component records which client calls were awaited, in order. -/
def _async_update_data (stateCall : ClientCall DeviceState)
    (detailsCall : ClientCall DeviceDetails) :
    Except UpdateError CoordinatorData × List ApiRequest :=
  match async_timeout 10 stateCall with
  | .authError =>
      (.error (.configEntryAuthFailed "Credentials expired for Zehnder Cloud"),
       [.getDeviceState])
  | .exn e =>
      (.error (.updateFailed ("Error communicating with API: " ++ e)),
       [.getDeviceState])
  | .ok state =>
      match async_timeout 10 detailsCall with
      | .authError =>
          (.error (.configEntryAuthFailed "Credentials expired for Zehnder Cloud"),
           [.getDeviceState, .getDeviceDetails])
      | .exn e =>
          (.error (.updateFailed ("Error communicating with API: " ++ e)),
           [.getDeviceState, .getDeviceDetails])
      | .ok details =>
          if timestampIsNone state then
            (.error (.updateFailed "Update from Zehnder Cloud did not contain data"),
             [.getDeviceState, .getDeviceDetails])
          else
            (.ok ⟨state, details⟩, [.getDeviceState, .getDeviceDetails])

/-- Modelled from the spec: the host DataUpdateCoordinator (Home Assistant
framework, not part of this repository) stores the dict returned by a
successful _async_update_data call as coordinator.data and retains the
previously stored data when the update raises; the raised error, if any, is
reported alongside the stored data. -/
def coordinator_refresh (stored : Option CoordinatorData)
    (stateCall : ClientCall DeviceState) (detailsCall : ClientCall DeviceDetails) :
    Option CoordinatorData × Option UpdateError :=
  match (_async_update_data stateCall detailsCall).1 with
  | .ok d => (some d, none)
  | .error e => (stored, some e)

/-- Python truncation toward zero, as performed by int() on a number. -/
def pyTrunc (q : ℚ) : Int := if q < 0 then ⌈q⌉ else ⌊q⌋

/-- Decimal digit value of a character, none for a non-digit. -/
def digitVal (c : Char) : Option Nat :=
  if c.isDigit then some (c.toNat - 48) else none

/-- Decimal reading of a nonempty, all-digit character list. -/
def digitsToNat : List Char → Option Nat
  | [] => none
  | cs => cs.foldl (fun acc c => acc.bind fun a => (digitVal c).map fun d => a * 10 + d)
      (some 0)

/-- Python int() applied to a string: an optional sign followed by decimal
digits parses to that integer, anything else raises ValueError (none). -/
def pyIntOfString (s : String) : Option Int :=
  match s.data with
  | '-' :: cs => (digitsToNat cs).map fun n => -(n : Int)
  | '+' :: cs => (digitsToNat cs).map fun n => (n : Int)
  | cs => (digitsToNat cs).map fun n => (n : Int)

/-- Python int(v): numbers truncate toward zero, booleans become 0 or 1,
strings must parse as an integer literal, null (None) raises TypeError; none
stands for the raise. -/
def pyInt : Value → Option Int
  | .num q => some (pyTrunc q)
  | .bool b => some (if b then 1 else 0)
  | .str s => pyIntOfString s
  | .null => none

/-- Python bool(v): zero, the empty string and None are falsy, everything else
is truthy; bool() never raises. -/
def pyBool : Value → Bool
  | .num q => decide (q ≠ 0)
  | .bool b => b
  | .str s => decide (s ≠ "")
  | .null => false

/-- A value placed into Python arithmetic: numbers and booleans are numeric,
a string or None raises TypeError; none stands for the raise. -/
def pyNum : Value → Option ℚ
  | .num q => some q
  | .bool b => some (if b then 1 else 0)
  | .str _ => none
  | .null => none

/-- SPEED_RANGE from fan.py: away is not included in speeds and instead
mapped to off. -/
def SPEED_RANGE : Int × Int := (1, 3)

/-- homeassistant.util.percentage.states_in_range (external dependency of
fan.py, embedded here): how many states exist in the inclusive range. -/
def states_in_range (r : Int × Int) : Int := r.2 - r.1 + 1

/-- homeassistant.util.percentage.int_states_in_range (external dependency of
fan.py, embedded here). -/
def int_states_in_range (r : Int × Int) : Int := states_in_range r

/-- homeassistant.util.percentage.percentage_to_ranged_value (external
dependency of fan.py, embedded here): the linear image of a percentage in the
range, states_in_range * percentage / 100 + (low - 1), as the exact number
Python's true division produces. -/
def percentage_to_ranged_value (r : Int × Int) (percentage : Int) : ℚ :=
  (states_in_range r : ℚ) * (percentage : ℚ) / 100 + ((r.1 : ℚ) - 1)

/-- homeassistant.util.percentage.ranged_value_to_percentage (external
dependency of fan.py, embedded here): int(((value - offset) * 100) //
states_in_range r) with offset = low - 1; the floor division already yields
an integer, which int() leaves unchanged. -/
def ranged_value_to_percentage (r : Int × Int) (v : ℚ) : Int :=
  ⌊(v - ((r.1 : ℚ) - 1)) * 100 / (states_in_range r : ℚ)⌋

/-- ZehnderCloudFan.percentage (fan.py): the current speed percentage,
ranged_value_to_percentage applied to the ventilationPreset field of the
coordinator state; none when the lookup or the arithmetic on the looked-up
value raises. -/
def ZehnderCloudFan.percentage (c : CoordinatorData) : Option Int :=
  (c.state.value "ventilationPreset").bind fun v =>
    (pyNum v).map fun q => ranged_value_to_percentage SPEED_RANGE q

/-- The discrete speed computed inside ZehnderCloudFan.async_set_percentage:
math.ceil(percentage_to_ranged_value(SPEED_RANGE, percentage)). -/
def async_set_percentage_speed (percentage : Int) : Int :=
  ⌈percentage_to_ranged_value SPEED_RANGE percentage⌉

/-- Settings patches sent to ZehnderCloud.set_device_settings: a mapping from
setting names to mappings of parameter names to integers. -/
abbrev SettingsPatch := List (String × List (String × Int))

/-- The settings patch ZehnderCloudFan.async_set_percentage sends to
set_device_settings for a given percentage. -/
def async_set_percentage_patch (percentage : Int) : SettingsPatch :=
  [("setVentilationPreset", [("value", async_set_percentage_speed percentage)])]

/-- ZehnderCloudFan.async_turn_on: with no percentage argument it sets
percentage 1 (low), otherwise the given percentage; this is the patch the call
causes to be sent. -/
def ZehnderCloudFan.async_turn_on_patch (percentage : Option Int) : SettingsPatch :=
  match percentage with
  | none => async_set_percentage_patch 1
  | some p => async_set_percentage_patch p

/-- ZehnderCloudFan.async_turn_off: sets percentage 0; this is the patch the
call causes to be sent. -/
def ZehnderCloudFan.async_turn_off_patch : SettingsPatch :=
  async_set_percentage_patch 0

namespace select

/-- ZehnderCloudSelectEntityDescription (select.py): key, display name, the
selectable options and the command building a settings patch from the chosen
option. -/
structure ZehnderCloudSelectEntityDescription where
  key : String
  name : String
  options : List String
  command : String → SettingsPatch

/-- The single select descriptor from select.py's DESCRIPTORS: bypass mode,
whose command ignores the chosen option and always forces the bypass for 60
seconds. -/
def bypassMode : ZehnderCloudSelectEntityDescription :=
  { key := "bypassMode"
    name := "Bypass mode"
    options := ["auto", "on", "off"]
    command := fun _option => [("forceBypass", [("seconds", 60)])] }

/-- DESCRIPTORS from select.py. -/
def DESCRIPTORS : List ZehnderCloudSelectEntityDescription := [bypassMode]

/-- ZehnderCloudSelect.current_option: returns the fixed string "auto"
whatever the coordinator data holds. -/
def ZehnderCloudSelect.current_option (_c : CoordinatorData) : String := "auto"

/-- ZehnderCloudSelect.async_select_option: the settings patch it sends to
set_device_settings, hard-coded independently of the chosen option. -/
def ZehnderCloudSelect.async_select_option_patch (_option : String) : SettingsPatch :=
  [("forceBypass", [("seconds", 60)])]

end select

/-- Helper for sensor table entries of the form
int(coordinator.state.value(k)). -/
def intStateValue (k : String) : CoordinatorData → Option Value :=
  fun coordinator => ((coordinator.state.value k).bind pyInt).map fun n => .num (n : ℚ)

/-- Helper for sensor table entries of the form
int(coordinator.state.value(k)) / 10 (Python true division). -/
def tenthsStateValue (k : String) : CoordinatorData → Option Value :=
  fun coordinator => ((coordinator.state.value k).bind pyInt).map fun n => .num ((n : ℚ) / 10)

/-- Helper for sensor table entries of the form coordinator.state.value(k). -/
def rawStateValue (k : String) : CoordinatorData → Option Value :=
  fun coordinator => coordinator.state.value k

/-- Helper for binary sensor table entries of the form
bool(coordinator.state.value(k)). -/
def boolStateValue (k : String) : CoordinatorData → Option Bool :=
  fun coordinator => (coordinator.state.value k).map pyBool

namespace sensor

/-- ZehnderCloudSensorEntityDescription (sensor.py): key, display name and the
extraction function from the coordinator; the display-only metadata fields
(device class, unit, category, icon) are omitted as inert. -/
structure ZehnderCloudSensorEntityDescription where
  key : String
  name : String
  value_fn : CoordinatorData → Option Value

def exhaustAirTemp : ZehnderCloudSensorEntityDescription :=
  { key := "exhaustAirTemp", name := "Exhaust air temperature"
    value_fn := tenthsStateValue "exhaustAirTemp" }

def exhaustAirHumidity : ZehnderCloudSensorEntityDescription :=
  { key := "exhaustAirHumidity", name := "Exhaust air humidity"
    value_fn := intStateValue "exhaustAirHumidity" }

def extractAirTemp : ZehnderCloudSensorEntityDescription :=
  { key := "extractAirTemp", name := "Extract air temperature"
    value_fn := tenthsStateValue "extractAirTemp" }

def extractAirHumidity : ZehnderCloudSensorEntityDescription :=
  { key := "extractAirHumidity", name := "Extract air humidity"
    value_fn := intStateValue "extractAirHumidity" }

def systemOutdoorTemp : ZehnderCloudSensorEntityDescription :=
  { key := "systemOutdoorTemp", name := "Outdoor air temperature"
    value_fn := tenthsStateValue "systemOutdoorTemp" }

def systemOutdoorHumidity : ZehnderCloudSensorEntityDescription :=
  { key := "systemOutdoorHumidity", name := "Outdoor air humidity"
    value_fn := intStateValue "systemOutdoorHumidity" }

def systemSupplyTemp : ZehnderCloudSensorEntityDescription :=
  { key := "systemSupplyTemp", name := "Supply air temperature"
    value_fn := tenthsStateValue "systemSupplyTemp" }

def systemSupplyHumidity : ZehnderCloudSensorEntityDescription :=
  { key := "systemSupplyHumidity", name := "Supply air humidity"
    value_fn := intStateValue "systemSupplyHumidity" }

def exhaustSpeed : ZehnderCloudSensorEntityDescription :=
  { key := "exhaustSpeed", name := "Exhaust fan speed"
    value_fn := intStateValue "exhaustSpeed" }

def systemSupplySpeed : ZehnderCloudSensorEntityDescription :=
  { key := "systemSupplySpeed", name := "Supply fan speed"
    value_fn := intStateValue "systemSupplySpeed" }

def exhaustDuty : ZehnderCloudSensorEntityDescription :=
  { key := "exhaustDuty", name := "Exhaust fan duty"
    value_fn := intStateValue "exhaustDuty" }

def systemSupplyDuty : ZehnderCloudSensorEntityDescription :=
  { key := "systemSupplyDuty", name := "Supply fan duty"
    value_fn := intStateValue "systemSupplyDuty" }

def exhaustFanAirFlow : ZehnderCloudSensorEntityDescription :=
  { key := "exhaustFanAirFlow", name := "Exhaust fan airflow"
    value_fn := intStateValue "exhaustFanAirFlow" }

def supplyFanAirFlow : ZehnderCloudSensorEntityDescription :=
  { key := "supplyFanAirFlow", name := "Supply fan airflow"
    value_fn := intStateValue "supplyFanAirFlow" }

def currentVentilationPower : ZehnderCloudSensorEntityDescription :=
  { key := "currentVentilationPower", name := "Power usage"
    value_fn := intStateValue "currentVentilationPower" }

def analogInput1 : ZehnderCloudSensorEntityDescription :=
  { key := "analogInput1", name := "Analog Input 1"
    value_fn := rawStateValue "analogInput1" }

def analogInput2 : ZehnderCloudSensorEntityDescription :=
  { key := "analogInput2", name := "Analog Input 2"
    value_fn := rawStateValue "analogInput2" }

def analogInput3 : ZehnderCloudSensorEntityDescription :=
  { key := "analogInput3", name := "Analog Input 3"
    value_fn := rawStateValue "analogInput3" }

def analogInput4 : ZehnderCloudSensorEntityDescription :=
  { key := "analogInput4", name := "Analog Input 4"
    value_fn := rawStateValue "analogInput4" }

def bypassDuty : ZehnderCloudSensorEntityDescription :=
  { key := "bypassDuty", name := "Bypass State"
    value_fn := rawStateValue "bypassDuty" }

def bypassMode : ZehnderCloudSensorEntityDescription :=
  { key := "bypassMode", name := "Bypass Mode"
    value_fn := rawStateValue "bypassMode" }

def ventilationMode : ZehnderCloudSensorEntityDescription :=
  { key := "ventilationMode", name := "Ventilation Mode"
    value_fn := rawStateValue "ventilationMode" }

def ventilationPreset : ZehnderCloudSensorEntityDescription :=
  { key := "ventilationPreset", name := "Ventilation Preset"
    value_fn := rawStateValue "ventilationPreset" }

def remainingFilterDuration : ZehnderCloudSensorEntityDescription :=
  { key := "remainingFilterDuration", name := "Days to replace filter"
    value_fn := intStateValue "remainingFilterDuration" }

/-- SENSORS from sensor.py, in source order. -/
def SENSORS : List ZehnderCloudSensorEntityDescription :=
  [exhaustAirTemp, exhaustAirHumidity, extractAirTemp, extractAirHumidity,
   systemOutdoorTemp, systemOutdoorHumidity, systemSupplyTemp,
   systemSupplyHumidity, exhaustSpeed, systemSupplySpeed, exhaustDuty,
   systemSupplyDuty, exhaustFanAirFlow, supplyFanAirFlow,
   currentVentilationPower, analogInput1, analogInput2, analogInput3,
   analogInput4, bypassDuty, bypassMode, ventilationMode, ventilationPreset,
   remainingFilterDuration]

end sensor

/-- ZehnderCloudSensor.native_value (sensor.py): the descriptor's value_fn
applied to the coordinator; none when the extraction raises. -/
def ZehnderCloudSensor.native_value (d : sensor.ZehnderCloudSensorEntityDescription)
    (c : CoordinatorData) : Option Value :=
  d.value_fn c

namespace binary_sensor

/-- ZehnderCloudBinarySensorEntityDescription (binary_sensor.py): key, display
name and the boolean extraction function from the coordinator. -/
structure ZehnderCloudBinarySensorEntityDescription where
  key : String
  name : String
  value_fn : CoordinatorData → Option Bool

def awayEnabled : ZehnderCloudBinarySensorEntityDescription :=
  { key := "awayEnabled", name := "Away mode"
    value_fn := boolStateValue "awayEnabled" }

def manualMode : ZehnderCloudBinarySensorEntityDescription :=
  { key := "manualMode", name := "Manual Mode"
    value_fn := boolStateValue "manualMode" }

def boostTimerEnabled : ZehnderCloudBinarySensorEntityDescription :=
  { key := "boostTimerEnabled", name := "Boost Timer Enabled"
    value_fn := boolStateValue "boostTimerEnabled" }

def coolingSeason : ZehnderCloudBinarySensorEntityDescription :=
  { key := "coolingSeason", name := "coolingSeason"
    value_fn := boolStateValue "coolingSeason" }

def heatingSeason : ZehnderCloudBinarySensorEntityDescription :=
  { key := "heatingSeason", name := "heatingSeason"
    value_fn := boolStateValue "heatingSeason" }

def hoodIsOn : ZehnderCloudBinarySensorEntityDescription :=
  { key := "hoodIsOn", name := "hoodIsOn"
    value_fn := boolStateValue "hoodIsOn" }

def hoodPresence : ZehnderCloudBinarySensorEntityDescription :=
  { key := "hoodPresence", name := "hoodPresence"
    value_fn := boolStateValue "hoodPresence" }

def postHeaterPresence : ZehnderCloudBinarySensorEntityDescription :=
  { key := "postHeaterPresence", name := "postHeaterPresence"
    value_fn := boolStateValue "postHeaterPresence" }

/-- SENSORS from binary_sensor.py, in source order. -/
def SENSORS : List ZehnderCloudBinarySensorEntityDescription :=
  [awayEnabled, manualMode, boostTimerEnabled, coolingSeason, heatingSeason,
   hoodIsOn, hoodPresence, postHeaterPresence]

end binary_sensor

/-- ZehnderCloudBinarySensor.is_on (binary_sensor.py): the descriptor's
value_fn applied to the coordinator; none when the extraction raises. -/
def ZehnderCloudBinarySensor.is_on
    (d : binary_sensor.ZehnderCloudBinarySensorEntityDescription)
    (c : CoordinatorData) : Option Bool :=
  d.value_fn c

/-- Every entity read over one coordinator: each sensor through
ZehnderCloudSensor.native_value and each binary sensor through
ZehnderCloudBinarySensor.is_on, as a pair of the descriptor key and the read
function; none means the read raised. -/
def allEntityReads : List (String × (CoordinatorData → Option Value)) :=
  (sensor.SENSORS.map fun d => (d.key, fun c => ZehnderCloudSensor.native_value d c)) ++
    (binary_sensor.SENSORS.map fun d =>
      (d.key, fun c => (ZehnderCloudBinarySensor.is_on d c).map Value.bool))

/-- Characterisation of the timestamp validity check: it reports false exactly
when the state mapping binds the timestamp key to a non-null value. -/
theorem timestampIsNone_eq_false (st : DeviceState) :
    timestampIsNone st = false ↔
      ∃ v, lookupValue st.data "timestamp" = some v ∧ v ≠ Value.null := by
  unfold timestampIsNone
  cases h : lookupValue st.data "timestamp" with
  | none => simp
  | some v => cases v <;> simp

/-- A fetch cycle only returns data whose state passed the timestamp check. -/
theorem update_data_ok (stateCall : ClientCall DeviceState)
    (detailsCall : ClientCall DeviceDetails) (c : CoordinatorData)
    (h : (_async_update_data stateCall detailsCall).1 = .ok c) :
    timestampIsNone c.state = false := by
  cases hs : async_timeout 10 stateCall with
  | authError => simp [_async_update_data, hs] at h
  | exn e => simp [_async_update_data, hs] at h
  | ok st =>
      cases hd : async_timeout 10 detailsCall with
      | authError => simp [_async_update_data, hs, hd] at h
      | exn e => simp [_async_update_data, hs, hd] at h
      | ok dt =>
          by_cases ht : timestampIsNone st = true
          · simp [_async_update_data, hs, hd, ht] at h
          · simp [_async_update_data, hs, hd, ht] at h
            rw [← h]
            simpa using ht

/-- Claim C1: if the state mapping returned by the API client has no timestamp
key (or a null one), the fetch cycle raises the fixed transient UpdateFailed
error and the coordinator's stored snapshot is left unchanged; and after any
successful fetch cycle the stored snapshot's state contains a non-null
timestamp value. -/
theorem c1_timestamp_validation :
    (∀ (stored : Option CoordinatorData) (stateCall : ClientCall DeviceState)
        (detailsCall : ClientCall DeviceDetails) (st : DeviceState) (dt : DeviceDetails),
        async_timeout 10 stateCall = .ok st →
        async_timeout 10 detailsCall = .ok dt →
        timestampIsNone st = true →
        (_async_update_data stateCall detailsCall).1 =
          .error (.updateFailed "Update from Zehnder Cloud did not contain data") ∧
        coordinator_refresh stored stateCall detailsCall =
          (stored, some (.updateFailed "Update from Zehnder Cloud did not contain data"))) ∧
    (∀ (stored : Option CoordinatorData) (stateCall : ClientCall DeviceState)
        (detailsCall : ClientCall DeviceDetails) (d : CoordinatorData),
        (coordinator_refresh stored stateCall detailsCall).2 = none →
        (coordinator_refresh stored stateCall detailsCall).1 = some d →
        ∃ v, lookupValue d.state.data "timestamp" = some v ∧ v ≠ Value.null) := by
  constructor
  · intro stored stateCall detailsCall st dt h1 h2 h3
    have h : (_async_update_data stateCall detailsCall).1 =
        .error (.updateFailed "Update from Zehnder Cloud did not contain data") := by
      simp only [_async_update_data, h1, h2, h3, if_true]
    refine ⟨h, ?_⟩
    unfold coordinator_refresh
    rw [h]
  · intro stored stateCall detailsCall d h1 h2
    unfold coordinator_refresh at h1 h2
    cases hu : (_async_update_data stateCall detailsCall).1 with
    | error e => rw [hu] at h1; simp at h1
    | ok c =>
        rw [hu] at h2
        simp at h2
        subst h2
        exact (timestampIsNone_eq_false c.state).mp (update_data_ok _ _ _ hu)

def c1wStateCall : ClientCall DeviceState := ⟨.ok ⟨[("timestamp", Value.null)]⟩, 0⟩

def c1wDetailsCall : ClientCall DeviceDetails := ⟨.ok ⟨[]⟩, 0⟩

/-- Witness for C1 at a concrete cycle whose state mapping binds timestamp to
null. -/
theorem c1_witness :
    (_async_update_data c1wStateCall c1wDetailsCall).1 =
      .error (.updateFailed "Update from Zehnder Cloud did not contain data") ∧
    coordinator_refresh none c1wStateCall c1wDetailsCall =
      (none, some (.updateFailed "Update from Zehnder Cloud did not contain data")) :=
  c1_timestamp_validation.1 none c1wStateCall c1wDetailsCall
    ⟨[("timestamp", Value.null)]⟩ ⟨[]⟩ (by decide) (by decide) (by decide)

/-- Claim C2: an AuthError from either client call surfaces as
ConfigEntryAuthFailed and never as UpdateFailed; every other exception raised
during the two calls surfaces as UpdateFailed carrying the underlying cause,
with the previous snapshot retained. -/
theorem c2_error_classification :
    (∀ (stateCall : ClientCall DeviceState) (detailsCall : ClientCall DeviceDetails),
        async_timeout 10 stateCall = .authError →
        (_async_update_data stateCall detailsCall).1 =
          .error (.configEntryAuthFailed "Credentials expired for Zehnder Cloud") ∧
        ∀ m, (_async_update_data stateCall detailsCall).1 ≠ .error (.updateFailed m)) ∧
    (∀ (stateCall : ClientCall DeviceState) (detailsCall : ClientCall DeviceDetails)
        (st : DeviceState),
        async_timeout 10 stateCall = .ok st →
        async_timeout 10 detailsCall = .authError →
        (_async_update_data stateCall detailsCall).1 =
          .error (.configEntryAuthFailed "Credentials expired for Zehnder Cloud") ∧
        ∀ m, (_async_update_data stateCall detailsCall).1 ≠ .error (.updateFailed m)) ∧
    (∀ (stored : Option CoordinatorData) (stateCall : ClientCall DeviceState)
        (detailsCall : ClientCall DeviceDetails) (e : String),
        async_timeout 10 stateCall = .exn e →
        (_async_update_data stateCall detailsCall).1 =
          .error (.updateFailed ("Error communicating with API: " ++ e)) ∧
        (coordinator_refresh stored stateCall detailsCall).1 = stored) ∧
    (∀ (stored : Option CoordinatorData) (stateCall : ClientCall DeviceState)
        (detailsCall : ClientCall DeviceDetails) (st : DeviceState) (e : String),
        async_timeout 10 stateCall = .ok st →
        async_timeout 10 detailsCall = .exn e →
        (_async_update_data stateCall detailsCall).1 =
          .error (.updateFailed ("Error communicating with API: " ++ e)) ∧
        (coordinator_refresh stored stateCall detailsCall).1 = stored) := by
  refine ⟨?_, ?_, ?_, ?_⟩
  · intro stateCall detailsCall h
    have he : (_async_update_data stateCall detailsCall).1 =
        .error (.configEntryAuthFailed "Credentials expired for Zehnder Cloud") := by
      simp only [_async_update_data, h]
    refine ⟨he, fun m hm => ?_⟩
    rw [he] at hm
    simp at hm
  · intro stateCall detailsCall st h1 h2
    have he : (_async_update_data stateCall detailsCall).1 =
        .error (.configEntryAuthFailed "Credentials expired for Zehnder Cloud") := by
      simp only [_async_update_data, h1, h2]
    refine ⟨he, fun m hm => ?_⟩
    rw [he] at hm
    simp at hm
  · intro stored stateCall detailsCall e h
    have he : (_async_update_data stateCall detailsCall).1 =
        .error (.updateFailed ("Error communicating with API: " ++ e)) := by
      simp only [_async_update_data, h]
    exact ⟨he, by simp only [coordinator_refresh, he]⟩
  · intro stored stateCall detailsCall st e h1 h2
    have he : (_async_update_data stateCall detailsCall).1 =
        .error (.updateFailed ("Error communicating with API: " ++ e)) := by
      simp only [_async_update_data, h1, h2]
    exact ⟨he, by simp only [coordinator_refresh, he]⟩

def c2wStateCall : ClientCall DeviceState := ⟨.exn "Connection reset", 0⟩

def c2wDetailsCall : ClientCall DeviceDetails := ⟨.ok ⟨[]⟩, 0⟩

/-- Witness for C2 at a concrete cycle whose state call raises a non-auth
exception. -/
theorem c2_witness :
    (_async_update_data c2wStateCall c2wDetailsCall).1 =
      .error (.updateFailed ("Error communicating with API: " ++ "Connection reset")) ∧
    (coordinator_refresh none c2wStateCall c2wDetailsCall).1 = none :=
  c2_error_classification.2.2.1 none c2wStateCall c2wDetailsCall "Connection reset"
    (by decide)

/-- Claim C3: every fetch cycle awaits the state call first and the details
call only after the state call completes successfully; each call sits under
its own 10-second timeout, and exceeding either bound raises a timeout that is
classified as a transient UpdateFailed. -/
theorem c3_call_order_and_timeouts :
    (∀ (stateCall : ClientCall DeviceState) (detailsCall : ClientCall DeviceDetails),
        ((_async_update_data stateCall detailsCall).2).head? =
          some ApiRequest.getDeviceState) ∧
    (∀ (stateCall : ClientCall DeviceState) (detailsCall : ClientCall DeviceDetails),
        (_async_update_data stateCall detailsCall).2 = [ApiRequest.getDeviceState] ∨
        (_async_update_data stateCall detailsCall).2 =
          [ApiRequest.getDeviceState, ApiRequest.getDeviceDetails]) ∧
    (∀ (stateCall : ClientCall DeviceState) (detailsCall : ClientCall DeviceDetails),
        (_async_update_data stateCall detailsCall).2 =
            [ApiRequest.getDeviceState, ApiRequest.getDeviceDetails] ↔
          ∃ st, async_timeout 10 stateCall = .ok st) ∧
    (∀ (stateCall : ClientCall DeviceState) (detailsCall : ClientCall DeviceDetails),
        10 < stateCall.duration →
        (_async_update_data stateCall detailsCall).1 =
          .error (.updateFailed ("Error communicating with API: " ++ "TimeoutError"))) ∧
    (∀ (stateCall : ClientCall DeviceState) (detailsCall : ClientCall DeviceDetails)
        (st : DeviceState),
        async_timeout 10 stateCall = .ok st →
        10 < detailsCall.duration →
        (_async_update_data stateCall detailsCall).1 =
          .error (.updateFailed ("Error communicating with API: " ++ "TimeoutError"))) := by
  have trace2 : ∀ (stateCall : ClientCall DeviceState)
      (detailsCall : ClientCall DeviceDetails) (st : DeviceState),
      async_timeout 10 stateCall = .ok st →
      (_async_update_data stateCall detailsCall).2 =
        [ApiRequest.getDeviceState, ApiRequest.getDeviceDetails] := by
    intro stateCall detailsCall st hs
    rcases hd : async_timeout 10 detailsCall with dt | _ | e
    · by_cases ht : timestampIsNone st = true
      · simp only [_async_update_data, hs, hd, ht, if_true]
      · simp only [_async_update_data, hs, hd]
        rw [if_neg ht]
    · simp only [_async_update_data, hs, hd]
    · simp only [_async_update_data, hs, hd]
  have trace1 : ∀ (stateCall : ClientCall DeviceState)
      (detailsCall : ClientCall DeviceDetails),
      (∀ st, async_timeout 10 stateCall ≠ .ok st) →
      (_async_update_data stateCall detailsCall).2 = [ApiRequest.getDeviceState] := by
    intro stateCall detailsCall hno
    rcases hs : async_timeout 10 stateCall with st | _ | e
    · exact absurd hs (hno st)
    · simp only [_async_update_data, hs]
    · simp only [_async_update_data, hs]
  refine ⟨?_, ?_, ?_, ?_, ?_⟩
  · intro stateCall detailsCall
    rcases hs : async_timeout 10 stateCall with st | _ | e
    · rw [trace2 stateCall detailsCall st hs]; rfl
    · rw [trace1 stateCall detailsCall (by intro st h; rw [hs] at h; exact absurd h (by simp))]
      rfl
    · rw [trace1 stateCall detailsCall (by intro st h; rw [hs] at h; exact absurd h (by simp))]
      rfl
  · intro stateCall detailsCall
    rcases hs : async_timeout 10 stateCall with st | _ | e
    · exact Or.inr (trace2 stateCall detailsCall st hs)
    · exact Or.inl (trace1 stateCall detailsCall
        (by intro st h; rw [hs] at h; exact absurd h (by simp)))
    · exact Or.inl (trace1 stateCall detailsCall
        (by intro st h; rw [hs] at h; exact absurd h (by simp)))
  · intro stateCall detailsCall
    constructor
    · intro h
      rcases hs : async_timeout 10 stateCall with st | _ | e
      · exact ⟨st, rfl⟩
      · rw [trace1 stateCall detailsCall
          (by intro st hh; rw [hs] at hh; exact absurd hh (by simp))] at h
        simp at h
      · rw [trace1 stateCall detailsCall
          (by intro st hh; rw [hs] at hh; exact absurd hh (by simp))] at h
        simp at h
    · rintro ⟨st, hs⟩
      exact trace2 stateCall detailsCall st hs
  · intro stateCall detailsCall h
    have hs : async_timeout 10 stateCall = .exn "TimeoutError" := by
      unfold async_timeout
      rw [if_pos h]
    simp only [_async_update_data, hs]
  · intro stateCall detailsCall st h1 h2
    have hd : async_timeout 10 detailsCall = .exn "TimeoutError" := by
      unfold async_timeout
      rw [if_pos h2]
    simp only [_async_update_data, h1, hd]

def c3wStateCall : ClientCall DeviceState := ⟨.ok ⟨[("timestamp", .num 111)]⟩, 25⟩

def c3wDetailsCall : ClientCall DeviceDetails := ⟨.ok ⟨[]⟩, 0⟩

/-- Witness for C3 at a concrete cycle whose state call exceeds its 10-second
bound. -/
theorem c3_witness :
    (_async_update_data c3wStateCall c3wDetailsCall).1 =
      .error (.updateFailed ("Error communicating with API: " ++ "TimeoutError")) :=
  c3_call_order_and_timeouts.2.2.2.1 c3wStateCall c3wDetailsCall (by decide)

/-- Evaluation of the speed-to-percentage direction at speed 1: floor of
100 / 3. -/
theorem rvtp_speed_one : ranged_value_to_percentage SPEED_RANGE ((1 : Int) : ℚ) = 33 := by
  unfold ranged_value_to_percentage states_in_range SPEED_RANGE
  norm_num [Int.floor_eq_iff]

/-- Evaluation of the speed-to-percentage direction at speed 2: floor of
200 / 3. -/
theorem rvtp_speed_two : ranged_value_to_percentage SPEED_RANGE ((2 : Int) : ℚ) = 66 := by
  unfold ranged_value_to_percentage states_in_range SPEED_RANGE
  norm_num [Int.floor_eq_iff]

/-- Evaluation of the speed-to-percentage direction at speed 3. -/
theorem rvtp_speed_three : ranged_value_to_percentage SPEED_RANGE ((3 : Int) : ℚ) = 100 := by
  unfold ranged_value_to_percentage states_in_range SPEED_RANGE
  norm_num [Int.floor_eq_iff]

/-- Evaluation of the percentage-to-speed direction at 33 percent. -/
theorem speed_of_33 : async_set_percentage_speed 33 = 1 := by
  unfold async_set_percentage_speed percentage_to_ranged_value states_in_range SPEED_RANGE
  norm_num [Int.ceil_eq_iff]

/-- Evaluation of the percentage-to-speed direction at 66 percent. -/
theorem speed_of_66 : async_set_percentage_speed 66 = 2 := by
  unfold async_set_percentage_speed percentage_to_ranged_value states_in_range SPEED_RANGE
  norm_num [Int.ceil_eq_iff]

/-- Evaluation of the percentage-to-speed direction at 100 percent. -/
theorem speed_of_100 : async_set_percentage_speed 100 = 3 := by
  unfold async_set_percentage_speed percentage_to_ranged_value states_in_range SPEED_RANGE
  norm_num [Int.ceil_eq_iff]

/-- Evaluation of the percentage-to-speed direction at 0 percent. -/
theorem speed_of_0 : async_set_percentage_speed 0 = 0 := by
  unfold async_set_percentage_speed percentage_to_ranged_value states_in_range SPEED_RANGE
  norm_num [Int.ceil_eq_iff]

/-- Evaluation of the percentage-to-speed direction at 1 percent. -/
theorem speed_of_1 : async_set_percentage_speed 1 = 1 := by
  unfold async_set_percentage_speed percentage_to_ranged_value states_in_range SPEED_RANGE
  norm_num [Int.ceil_eq_iff]

/-- Claim C4: the percentage-to-speed conversion rounds up within the 3-step
range: percentage 0 gives the off speed 0 (below the range, not speed 1),
every percentage in 34..66 gives speed 2, and percentage 100 gives speed 3. -/
theorem c4_percentage_to_speed_mapping :
    async_set_percentage_speed 0 = 0 ∧
    (∀ p : Int, 34 ≤ p → p ≤ 66 → async_set_percentage_speed p = 2) ∧
    async_set_percentage_speed 100 = 3 := by
  refine ⟨speed_of_0, ?_, speed_of_100⟩
  intro p h1 h2
  have hp1 : (34 : ℚ) ≤ (p : ℚ) := by exact_mod_cast h1
  have hp2 : ((p : ℚ)) ≤ 66 := by exact_mod_cast h2
  unfold async_set_percentage_speed percentage_to_ranged_value states_in_range SPEED_RANGE
  rw [Int.ceil_eq_iff]
  push_cast
  constructor <;> linarith

/-- Witness for C4 at the concrete midpoint percentage 50. -/
theorem c4_witness : async_set_percentage_speed 50 = 2 :=
  c4_percentage_to_speed_mapping.2.1 50 (by decide) (by decide)

/-- Claim C5: for every speed 1..3, the fan's percentage property (the
speed-to-percentage direction) composed with the percentage-to-speed
conversion of async_set_percentage is the identity. -/
theorem c5_round_trip :
    ∀ (s : Int) (c : CoordinatorData), 1 ≤ s → s ≤ 3 →
      c.state.value "ventilationPreset" = some (.num (s : ℚ)) →
      ZehnderCloudFan.percentage c =
        some (ranged_value_to_percentage SPEED_RANGE (s : ℚ)) ∧
      async_set_percentage_speed (ranged_value_to_percentage SPEED_RANGE (s : ℚ)) = s := by
  intro s c h1 h3 hv
  constructor
  · simp [ZehnderCloudFan.percentage, hv, pyNum]
  · have : s = 1 ∨ s = 2 ∨ s = 3 := by omega
    rcases this with rfl | rfl | rfl
    · rw [rvtp_speed_one, speed_of_33]
    · rw [rvtp_speed_two, speed_of_66]
    · rw [rvtp_speed_three, speed_of_100]

def c5wCoord : CoordinatorData := ⟨⟨[("ventilationPreset", .num 2)]⟩, ⟨[]⟩⟩

/-- Witness for C5 at the concrete speed 2. -/
theorem c5_witness :
    ZehnderCloudFan.percentage c5wCoord =
      some (ranged_value_to_percentage SPEED_RANGE ((2 : Int) : ℚ)) ∧
    async_set_percentage_speed (ranged_value_to_percentage SPEED_RANGE ((2 : Int) : ℚ)) = 2 :=
  c5_round_trip 2 c5wCoord (by decide) (by decide) (by norm_num [DeviceState.value, lookupValue, c5wCoord, List.lookup])

/-- Claim C9: the select entity's async_select_option sends the identical
fixed settings patch whatever option is chosen, and current_option returns
the fixed string "auto" whatever the coordinator data holds. -/
theorem c9_select_ignores_option :
    (∀ option : String,
        select.ZehnderCloudSelect.async_select_option_patch option =
          [("forceBypass", [("seconds", 60)])]) ∧
    (∀ o1 o2 : String,
        select.ZehnderCloudSelect.async_select_option_patch o1 =
          select.ZehnderCloudSelect.async_select_option_patch o2) ∧
    (∀ (o : String), select.bypassMode.command o = [("forceBypass", [("seconds", 60)])]) ∧
    (∀ c : CoordinatorData, select.ZehnderCloudSelect.current_option c = "auto") :=
  ⟨fun _ => rfl, fun _ _ => rfl, fun _ => rfl, fun _ => rfl⟩

/-- Claim C10: async_turn_on with no percentage argument sends the patch with
discrete speed 1 (the lowest in-range speed, never the off speed 0), and
async_turn_off sends the patch with speed 0. -/
theorem c10_turn_on_off_patches :
    ZehnderCloudFan.async_turn_on_patch none =
      [("setVentilationPreset", [("value", 1)])] ∧
    async_set_percentage_speed 1 ≠ 0 ∧
    ZehnderCloudFan.async_turn_off_patch =
      [("setVentilationPreset", [("value", 0)])] := by
  refine ⟨?_, ?_, ?_⟩
  · simp [ZehnderCloudFan.async_turn_on_patch, async_set_percentage_patch, speed_of_1]
  · rw [speed_of_1]; decide
  · simp [ZehnderCloudFan.async_turn_off_patch, async_set_percentage_patch, speed_of_0]

/-- Python int() leaves a number that is already an integer unchanged. -/
theorem pyTrunc_intCast (n : Int) : pyTrunc ((n : Int) : ℚ) = n := by
  unfold pyTrunc
  rcases lt_or_le ((n : Int) : ℚ) 0 with h | h
  · rw [if_pos h, Int.ceil_intCast]
  · rw [if_neg (not_lt.mpr h), Int.floor_intCast]

def c6Coord : CoordinatorData := ⟨⟨[("exhaustAirTemp", .num 264)]⟩, ⟨[]⟩⟩

/-- Claim C6 counterexample: on the raw value 264 the exhaust air temperature
descriptor extracts 26.4 (true division by 10), which is not the integer
quotient 264 / 10 = 26. -/
theorem c6_counterexample :
    ZehnderCloudSensor.native_value sensor.exhaustAirTemp c6Coord =
      some (.num (132 / 5)) ∧
    (132 / 5 : ℚ) ≠ ((264 / 10 : Int) : ℚ) := by
  constructor
  · have hl : c6Coord.state.value "exhaustAirTemp" = some (.num 264) := by decide
    have ht : pyTrunc (264 : ℚ) = 264 := by
      rw [show ((264 : ℚ)) = (((264 : Int) : Int) : ℚ) by norm_num, pyTrunc_intCast]
    simp [ZehnderCloudSensor.native_value, sensor.exhaustAirTemp, tenthsStateValue,
      hl, pyInt, ht]
    norm_num
  · norm_num

/-- Claim C6 as amended: all four tenths-conversion descriptors of the sensor
table (exhaust, extract, outdoor and supply air temperature) extract the raw
integer value divided by 10 by exact (true) division, keeping the fractional
part, rather than taking the integer quotient. -/
theorem c6_true_division :
    ∀ n : Int,
      ZehnderCloudSensor.native_value sensor.exhaustAirTemp
        ⟨⟨[("exhaustAirTemp", .num ((n : Int) : ℚ))]⟩, ⟨[]⟩⟩ =
        some (.num (((n : Int) : ℚ) / 10)) ∧
      ZehnderCloudSensor.native_value sensor.extractAirTemp
        ⟨⟨[("extractAirTemp", .num ((n : Int) : ℚ))]⟩, ⟨[]⟩⟩ =
        some (.num (((n : Int) : ℚ) / 10)) ∧
      ZehnderCloudSensor.native_value sensor.systemOutdoorTemp
        ⟨⟨[("systemOutdoorTemp", .num ((n : Int) : ℚ))]⟩, ⟨[]⟩⟩ =
        some (.num (((n : Int) : ℚ) / 10)) ∧
      ZehnderCloudSensor.native_value sensor.systemSupplyTemp
        ⟨⟨[("systemSupplyTemp", .num ((n : Int) : ℚ))]⟩, ⟨[]⟩⟩ =
        some (.num (((n : Int) : ℚ) / 10)) := by
  intro n
  refine ⟨?_, ?_, ?_, ?_⟩ <;>
    simp [ZehnderCloudSensor.native_value, sensor.exhaustAirTemp,
      sensor.extractAirTemp, sensor.systemOutdoorTemp, sensor.systemSupplyTemp,
      tenthsStateValue, DeviceState.value, lookupValue,
      List.lookup, pyInt, pyTrunc_intCast]

def c8Coord : CoordinatorData :=
  ⟨⟨[("timestamp", .num 111), ("ventilationPreset", .num 2)]⟩,
   ⟨[("swVersion", .str "R1.4.0")]⟩⟩

/-- Claim C8 counterexample: on the scenario snapshot the fan's percentage
property returns 66, not (approximately) 50. -/
theorem c8_counterexample :
    ZehnderCloudFan.percentage c8Coord = some 66 ∧
    ZehnderCloudFan.percentage c8Coord ≠ some 50 := by
  have hp : ZehnderCloudFan.percentage c8Coord = some 66 := by
    have hl : c8Coord.state.value "ventilationPreset" = some (.num 2) := by decide
    have h2 : ranged_value_to_percentage SPEED_RANGE ((2 : ℚ)) = 66 := by
      rw [show ((2 : ℚ)) = (((2 : Int) : Int) : ℚ) by norm_num]
      exact rvtp_speed_two
    simp [ZehnderCloudFan.percentage, hl, pyNum, h2]
  refine ⟨hp, ?_⟩
  rw [hp]
  simp

/-- Claim C8 as amended: on the scenario snapshot the fan's percentage
property returns 66 (the floor of 2 times 100 over 3) and the Ventilation
Preset sensor reads 2. -/
theorem c8_scenario :
    ZehnderCloudFan.percentage c8Coord = some 66 ∧
    ZehnderCloudSensor.native_value sensor.ventilationPreset c8Coord =
      some (.num 2) := by
  refine ⟨c8_counterexample.1, ?_⟩
  decide

/-- A descriptor whose key is absent from the coordinator state produces a
failed read, for every entity read of the two tables. -/
theorem entity_read_missing_key :
    ∀ d ∈ allEntityReads, ∀ c : CoordinatorData,
      lookupValue c.state.data d.1 = none → d.2 c = none := by
  intro d hd c h
  fin_cases hd <;>
    simp_all [allEntityReads, sensor.SENSORS, binary_sensor.SENSORS,
      sensor.exhaustAirTemp, sensor.exhaustAirHumidity, sensor.extractAirTemp,
      sensor.extractAirHumidity, sensor.systemOutdoorTemp,
      sensor.systemOutdoorHumidity, sensor.systemSupplyTemp,
      sensor.systemSupplyHumidity, sensor.exhaustSpeed, sensor.systemSupplySpeed,
      sensor.exhaustDuty, sensor.systemSupplyDuty, sensor.exhaustFanAirFlow,
      sensor.supplyFanAirFlow, sensor.currentVentilationPower,
      sensor.analogInput1, sensor.analogInput2, sensor.analogInput3,
      sensor.analogInput4, sensor.bypassDuty, sensor.bypassMode,
      sensor.ventilationMode, sensor.ventilationPreset,
      sensor.remainingFilterDuration, binary_sensor.awayEnabled,
      binary_sensor.manualMode, binary_sensor.boostTimerEnabled,
      binary_sensor.coolingSeason, binary_sensor.heatingSeason,
      binary_sensor.hoodIsOn, binary_sensor.hoodPresence,
      binary_sensor.postHeaterPresence, ZehnderCloudSensor.native_value,
      ZehnderCloudBinarySensor.is_on, intStateValue, tenthsStateValue,
      rawStateValue, boolStateValue, DeviceState.value]

/-- A descriptor whose key is present with a numeric value produces a
successful read, for every entity read of the two tables. -/
theorem entity_read_numeric :
    ∀ d ∈ allEntityReads, ∀ (c : CoordinatorData) (q : ℚ),
      lookupValue c.state.data d.1 = some (.num q) → (d.2 c).isSome = true := by
  intro d hd c q h
  fin_cases hd <;>
    simp_all [allEntityReads, sensor.SENSORS, binary_sensor.SENSORS,
      sensor.exhaustAirTemp, sensor.exhaustAirHumidity, sensor.extractAirTemp,
      sensor.extractAirHumidity, sensor.systemOutdoorTemp,
      sensor.systemOutdoorHumidity, sensor.systemSupplyTemp,
      sensor.systemSupplyHumidity, sensor.exhaustSpeed, sensor.systemSupplySpeed,
      sensor.exhaustDuty, sensor.systemSupplyDuty, sensor.exhaustFanAirFlow,
      sensor.supplyFanAirFlow, sensor.currentVentilationPower,
      sensor.analogInput1, sensor.analogInput2, sensor.analogInput3,
      sensor.analogInput4, sensor.bypassDuty, sensor.bypassMode,
      sensor.ventilationMode, sensor.ventilationPreset,
      sensor.remainingFilterDuration, binary_sensor.awayEnabled,
      binary_sensor.manualMode, binary_sensor.boostTimerEnabled,
      binary_sensor.coolingSeason, binary_sensor.heatingSeason,
      binary_sensor.hoodIsOn, binary_sensor.hoodPresence,
      binary_sensor.postHeaterPresence, ZehnderCloudSensor.native_value,
      ZehnderCloudBinarySensor.is_on, intStateValue, tenthsStateValue,
      rawStateValue, boolStateValue, DeviceState.value, pyInt]

def c7Coord : CoordinatorData := ⟨⟨[("exhaustAirHumidity", .str "abc")]⟩, ⟨[]⟩⟩

/-- Claim C7 counterexample: on a snapshot whose exhaustAirTemp key is absent
and whose exhaustAirHumidity key is present but bound to a non-numeric string,
the exhaust air temperature read fails as the claim predicts, yet the exhaust
air humidity read also fails even though its own key is present. -/
theorem c7_counterexample :
    sensor.exhaustAirTemp ≠ sensor.exhaustAirHumidity ∧
    lookupValue c7Coord.state.data sensor.exhaustAirTemp.key = none ∧
    ZehnderCloudSensor.native_value sensor.exhaustAirTemp c7Coord = none ∧
    (lookupValue c7Coord.state.data sensor.exhaustAirHumidity.key).isSome = true ∧
    ZehnderCloudSensor.native_value sensor.exhaustAirHumidity c7Coord = none := by
  refine ⟨?_, by decide, by decide, by decide, by decide⟩
  intro h
  exact absurd (congrArg sensor.ZehnderCloudSensorEntityDescription.key h) (by decide)

/-- Claim C7 as amended: for any two distinct descriptors of the sensor and
binary-sensor tables, a snapshot missing the first descriptor's key makes that
read fail, while the second descriptor's read on the same snapshot succeeds
whenever its own key is present with a numeric value. -/
theorem c7_missing_key_isolation :
    ∀ (c : CoordinatorData) (d1 d2 : String × (CoordinatorData → Option Value)) (q : ℚ),
      d1 ∈ allEntityReads → d2 ∈ allEntityReads → d1 ≠ d2 →
      lookupValue c.state.data d1.1 = none →
      lookupValue c.state.data d2.1 = some (.num q) →
      d1.2 c = none ∧ (d2.2 c).isSome = true := by
  intro c d1 d2 q h1 h2 _hne hmiss hnum
  exact ⟨entity_read_missing_key d1 h1 c hmiss, entity_read_numeric d2 h2 c q hnum⟩

def c7wCoord : CoordinatorData := ⟨⟨[("exhaustAirHumidity", .num 57)]⟩, ⟨[]⟩⟩

def c7d1 : String × (CoordinatorData → Option Value) :=
  ("exhaustAirTemp", fun c => ZehnderCloudSensor.native_value sensor.exhaustAirTemp c)

def c7d2 : String × (CoordinatorData → Option Value) :=
  ("exhaustAirHumidity", fun c => ZehnderCloudSensor.native_value sensor.exhaustAirHumidity c)

/-- Membership of the exhaust air temperature read in the combined table. -/
theorem c7d1_mem : c7d1 ∈ allEntityReads := by
  unfold allEntityReads sensor.SENSORS
  exact List.mem_append_left _ (List.mem_map_of_mem _ (List.Mem.head _))

/-- Membership of the exhaust air humidity read in the combined table. -/
theorem c7d2_mem : c7d2 ∈ allEntityReads := by
  unfold allEntityReads sensor.SENSORS
  exact List.mem_append_left _ (List.mem_map_of_mem _ (List.Mem.tail _ (List.Mem.head _)))

/-- Witness for the amended C7 at a concrete snapshot carrying a numeric
exhaust air humidity and no exhaust air temperature. -/
theorem c7_witness : c7d1.2 c7wCoord = none ∧ (c7d2.2 c7wCoord).isSome = true :=
  c7_missing_key_isolation c7wCoord c7d1 c7d2 57 c7d1_mem c7d2_mem
    (by intro h; exact absurd (congrArg Prod.fst h) (by decide))
    (by decide) (by decide)
